import Mathlib

/-!
Verification development for the place-interests classifier
(`main.py`, the serverless handler shell, and `app.py`, the interactive
Streamlit shell).  The Python source is shallowly embedded: the model's
reply text is an explicit input, the OpenAI / Google / S3 collaborators
are represented by the requests built for them and by the call trace,
and `json.loads` is modelled by an executable JSON parser below.
-/

namespace GenInterests

/-- JSON values as produced by `json.loads`.  Objects keep their members in
textual order; `dictGet` below reproduces Python dict semantics (a repeated
key keeps its last value).  Numeric literals are kept as their lexeme: the
classifier never accepts a number anywhere, so their numeric value is
irrelevant. -/
inductive Json where
  | null : Json
  | bool (b : Bool) : Json
  | num (lexeme : String) : Json
  | str (s : String) : Json
  | arr (elems : List Json) : Json
  | obj (members : List (String × Json)) : Json

/-- JSON whitespace characters (the four accepted by `json.loads`). -/
def jsonWs (c : Char) : Bool :=
  c = ' ' || c = '\n' || c = '\r' || c = '\t'

/-- Drop leading JSON whitespace. -/
def skipWs : List Char → List Char
  | [] => []
  | c :: cs => if jsonWs c then skipWs cs else c :: cs

/-- Value of a hexadecimal digit, if any (code points 0-9, a-f, A-F). -/
def hexVal (c : Char) : Option Nat :=
  let n := c.toNat
  if 48 ≤ n ∧ n ≤ 57 then some (n - 48)
  else if 97 ≤ n ∧ n ≤ 102 then some (n - 87)
  else if 65 ≤ n ∧ n ≤ 70 then some (n - 55)
  else none

/-- Body of a JSON string literal, after the opening quote: handles the
standard escapes and rejects raw control characters (as `json.loads` does
in its default strict mode).  Returns the decoded string and the input
following the closing quote. -/
def parseStringBody : Nat → List Char → List Char → Option (String × List Char)
  | 0, _, _ => none
  | _ + 1, [], _ => none
  | fuel + 1, c :: cs, acc =>
    if c = '"' then some (String.mk acc.reverse, cs)
    else if c = '\\' then
      match cs with
      | [] => none
      | e :: cs2 =>
        if e = '"' then parseStringBody fuel cs2 ('"' :: acc)
        else if e = '\\' then parseStringBody fuel cs2 ('\\' :: acc)
        else if e = '/' then parseStringBody fuel cs2 ('/' :: acc)
        else if e = 'b' then parseStringBody fuel cs2 (Char.ofNat 8 :: acc)
        else if e = 'f' then parseStringBody fuel cs2 (Char.ofNat 12 :: acc)
        else if e = 'n' then parseStringBody fuel cs2 ('\n' :: acc)
        else if e = 'r' then parseStringBody fuel cs2 ('\r' :: acc)
        else if e = 't' then parseStringBody fuel cs2 ('\t' :: acc)
        else if e = 'u' then
          match cs2 with
          | h1 :: h2 :: h3 :: h4 :: cs3 =>
            match hexVal h1, hexVal h2, hexVal h3, hexVal h4 with
            | some a, some b, some c2, some d =>
              parseStringBody fuel cs3
                (Char.ofNat (((a * 16 + b) * 16 + c2) * 16 + d) :: acc)
            | _, _, _, _ => none
          | _ => none
        else none
    else if c.toNat < 32 then none
    else parseStringBody fuel cs (c :: acc)

/-- Decimal digit test. -/
def isDigitCh (c : Char) : Bool := '0' ≤ c && c ≤ '9'

/-- Longest leading run of decimal digits, with the remainder. -/
def takeDigits : List Char → List Char × List Char
  | [] => ([], [])
  | c :: cs =>
    if isDigitCh c then
      let r := takeDigits cs
      (c :: r.1, r.2)
    else ([], c :: cs)

/-- Lex one JSON number (sign, integer part with no leading zeros, optional
fraction, optional exponent), returning its lexeme and the remainder. -/
def parseNumber (cs : List Char) : Option (String × List Char) :=
  let sr : List Char × List Char :=
    match cs with
    | '-' :: rest => (['-'], rest)
    | _ => ([], cs)
  match sr.2 with
  | [] => none
  | c :: rest =>
    if isDigitCh c then
      let ir : List Char × List Char :=
        if c = '0' then (['0'], rest) else takeDigits sr.2
      let fr : List Char × List Char :=
        match ir.2 with
        | '.' :: fcs =>
          match takeDigits fcs with
          | ([], _) => ([], ir.2)
          | (fd, r2) => ('.' :: fd, r2)
        | _ => ([], ir.2)
      let er : List Char × List Char :=
        match fr.2 with
        | e :: ecs =>
          if e = 'e' || e = 'E' then
            let sr2 : List Char × List Char :=
              match ecs with
              | '+' :: r2 => (['+'], r2)
              | '-' :: r2 => (['-'], r2)
              | _ => ([], ecs)
            match takeDigits sr2.2 with
            | ([], _) => ([], fr.2)
            | (ed, r3) => (e :: (sr2.1 ++ ed), r3)
          else ([], fr.2)
        | [] => ([], fr.2)
      some (String.mk (sr.1 ++ ir.1 ++ fr.1 ++ er.1), er.2)
    else none

mutual

/-- Recursive-descent JSON value, fuel-indexed for termination. -/
def parseValue : Nat → List Char → Option (Json × List Char)
  | 0, _ => none
  | fuel + 1, cs =>
    match skipWs cs with
    | [] => none
    | c :: rest =>
      if c = '{' then parseObjBody fuel rest []
      else if c = '[' then parseArrBody fuel rest []
      else if c = '"' then
        match parseStringBody fuel rest [] with
        | some (s, r) => some (Json.str s, r)
        | none => none
      else if c = 't' then
        match rest with
        | 'r' :: 'u' :: 'e' :: r => some (Json.bool true, r)
        | _ => none
      else if c = 'f' then
        match rest with
        | 'a' :: 'l' :: 's' :: 'e' :: r => some (Json.bool false, r)
        | _ => none
      else if c = 'n' then
        match rest with
        | 'u' :: 'l' :: 'l' :: r => some (Json.null, r)
        | _ => none
      else
        match parseNumber (c :: rest) with
        | some (lex, r) => some (Json.num lex, r)
        | none => none

/-- Members of a JSON object, after the opening brace or a comma. -/
def parseObjBody : Nat → List Char → List (String × Json) →
    Option (Json × List Char)
  | 0, _, _ => none
  | fuel + 1, cs, acc =>
    match skipWs cs with
    | [] => none
    | c :: rest =>
      if c = '}' then
        if acc.isEmpty then some (Json.obj acc, rest) else none
      else if c = '"' then
        match parseStringBody fuel rest [] with
        | none => none
        | some (key, r1) =>
          match skipWs r1 with
          | ':' :: r2 =>
            match parseValue fuel r2 with
            | none => none
            | some (v, r3) =>
              match skipWs r3 with
              | ',' :: r4 => parseObjBody fuel r4 (acc ++ [(key, v)])
              | '}' :: r4 => some (Json.obj (acc ++ [(key, v)]), r4)
              | _ => none
          | _ => none
      else none

/-- Elements of a JSON array, after the opening bracket or a comma. -/
def parseArrBody : Nat → List Char → List Json → Option (Json × List Char)
  | 0, _, _ => none
  | fuel + 1, cs, acc =>
    match skipWs cs with
    | [] => none
    | c :: rest =>
      if c = ']' then
        if acc.isEmpty then some (Json.arr acc, rest) else none
      else
        match parseValue fuel (c :: rest) with
        | none => none
        | some (v, r1) =>
          match skipWs r1 with
          | ',' :: r2 => parseArrBody fuel r2 (acc ++ [v])
          | ']' :: r2 => some (Json.arr (acc ++ [v]), r2)
          | _ => none

end

/-- Model of Python `json.loads`: parse one JSON value and require only
whitespace to follow.  `none` models a raised `json.JSONDecodeError`.  The
fuel `2 * length + 2` dominates the recursion depth, which consumes at
least one character every two steps. -/
def json_loads (s : String) : Option Json :=
  match parseValue (2 * s.length + 2) s.data with
  | none => none
  | some (v, rest) => if (skipWs rest).isEmpty then some v else none

/-- Lookup in a JSON object with Python dict semantics: `json.loads` builds
a `dict`, so a repeated key keeps its last value. -/
def dictGet : List (String × Json) → String → Option Json
  | [], _ => none
  | (k, v) :: rest, key =>
    match dictGet rest key with
    | some v2 => some v2
    | none => if k = key then some v else none

/-- Pydantic model `Interest` (`main_interest: str`,
`sub_interests: List[str]`, no length constraint on either). -/
structure Interest where
  main_interest : String
  sub_interests : List String
deriving DecidableEq, Repr

/-- Pydantic model `PlaceInterests`
(`interests: List[Interest] = Field(..., min_items=1)`). -/
structure PlaceInterests where
  interests : List Interest
deriving DecidableEq, Repr

/-- Pydantic coercion of a JSON value into a `str` field: only a JSON
string is accepted. -/
def asStr : Json → Option String
  | Json.str s => some s
  | _ => none

/-- Pydantic coercion of JSON values into `List[str]` elements. -/
def asStrList : List Json → Option (List String)
  | [] => some []
  | j :: js =>
    match asStr j, asStrList js with
    | some s, some rest => some (s :: rest)
    | _, _ => none

/-- Validation of one `Interest` object: both fields required, unknown keys
ignored (pydantic default), wrong shapes rejected. -/
def validateInterest : Json → Option Interest
  | Json.obj kvs =>
    match dictGet kvs "main_interest", dictGet kvs "sub_interests" with
    | some mj, some sj =>
      match asStr mj, sj with
      | some m, Json.arr els =>
        match asStrList els with
        | some subs => some ⟨m, subs⟩
        | none => none
      | _, _ => none
    | _, _ => none
  | _ => none

/-- Validation of the list under the `interests` key. -/
def validateInterests : List Json → Option (List Interest)
  | [] => some []
  | j :: js =>
    match validateInterest j, validateInterests js with
    | some i, some rest => some (i :: rest)
    | _, _ => none

/-- Validation of a parsed response against `PlaceInterests`
(`validate_json(..., PlaceInterests)`): requires a JSON object whose
`interests` member is an array of valid `Interest` objects with at least
one element (`min_items=1`); unknown top-level keys are ignored. -/
def validatePlaceInterests (j : Json) : Option PlaceInterests :=
  match j with
  | Json.obj kvs =>
    match dictGet kvs "interests" with
    | some (Json.arr js) =>
      match validateInterests js with
      | some ints => if 1 ≤ ints.length then some ⟨ints⟩ else none
      | none => none
    | _ => none
  | _ => none

/-- The two `ValueError` kinds raised by `generate_interests`:
`invalidResponseFormat` wraps a `json.JSONDecodeError`,
`schemaValidationError` wraps a `pydantic.ValidationError`. -/
inductive GenFailure where
  | invalidResponseFormat : GenFailure
  | schemaValidationError : GenFailure
deriving DecidableEq, Repr

/-- Message prefix of the `ValueError` raised for each failure kind. -/
def genFailureMessage : GenFailure → String
  | GenFailure.invalidResponseFormat => "Invalid JSON returned by API"
  | GenFailure.schemaValidationError =>
      "API response doesn\x27t match expected structure"

/-- Parse-and-validate phase of `generate_interests`: `json.loads` on the
model reply, then pydantic validation of the parsed value
(`validate_json(json.dumps(parsed_json), PlaceInterests)`). -/
def classifyContent (content : String) : Except GenFailure PlaceInterests :=
  match json_loads content with
  | none => Except.error GenFailure.invalidResponseFormat
  | some parsed =>
    match validatePlaceInterests parsed with
    | some pi => Except.ok pi
    | none => Except.error GenFailure.schemaValidationError

/-- Place-detail record as read by the prompt builder.  Each field the code
accesses with `.get` is optional; `editorial_summary` is a nested record
whose `overview` may itself be missing; `extraKeys` records the names of
any other keys present, so that Python dict truthiness (`not place_details`
iff the dict is empty) is representable. -/
structure PlaceDetails where
  name : Option String
  formatted_address : Option String
  types : Option (List String)
  editorial_summary : Option (Option String)
  extraKeys : List String
deriving DecidableEq, Repr

/-- Python truthiness of the place-details dict: truthy iff it has at
least one key. -/
def PlaceDetails.truthy (pd : PlaceDetails) : Bool :=
  pd.name.isSome || pd.formatted_address.isSome || pd.types.isSome ||
  pd.editorial_summary.isSome || !pd.extraKeys.isEmpty

/-- Leading constant text of the prompt f-string, up to the `Name:` label. -/
def promptIntro : String :=
  "\n    Based on the following place details, generate a list of interests and sub-interests that match this location. \n    Choose only from the provided list of interests.\n\n    Place Details:\n    "

/-- Constant JSON-format example embedded in the prompt. -/
def promptJsonFormat : String :=
  "Generate the response in a structured JSON format with the following structure:\n    \x7b\n        \"interests\": [\n            \x7b\n                \"main_interest\": \"Interest Category\",\n                \"sub_interests\": [\"Sub-interest 1\", \"Sub-interest 2\", ...]\n            \x7d,\n            ...\n        ]\n    \x7d\n    "

/-- Common part of the prompt f-string shared verbatim by `main.py` and
`app.py`: place fields rendered with `.get(..., 'N/A')` (the `types` list
is joined with no placeholder), then the taxonomy joined with a comma. -/
def promptBody (pd : PlaceDetails) (interests : List String) : String :=
  promptIntro ++
  "Name: " ++ pd.name.getD "N/A" ++
  "\n    " ++ "Address: " ++ pd.formatted_address.getD "N/A" ++
  "\n    " ++ "Types: " ++ String.intercalate ", " (pd.types.getD []) ++
  "\n    " ++ "Description: " ++ (pd.editorial_summary.getD none).getD "N/A" ++
  "\n\n    Provided list of interests:\n    " ++
  String.intercalate ", " interests ++
  "\n\n    " ++ promptJsonFormat

/-- Prompt built by `generate_interests` in `main.py` (handler shell); its
final instruction asks only for taxonomy adherence. -/
def mainPrompt (pd : PlaceDetails) (interests : List String) : String :=
  promptBody pd interests ++
  "Ensure that you include only interests from the provided list.\n    "

/-- Prompt built by `generate_interests` in `app.py` (interactive shell);
its final instruction asks for at least one interest. -/
def appPrompt (pd : PlaceDetails) (interests : List String) : String :=
  promptBody pd interests ++
  "Ensure that you include at least one interest in the list.\n    "

/-- One chat message of the OpenAI request. -/
structure ChatMessage where
  role : String
  content : String
deriving DecidableEq, Repr

/-- The outbound `chat.completions.create` request: model name, messages,
and the `response_format` type. -/
structure ChatRequest where
  model : String
  messages : List ChatMessage
  response_format_type : String
deriving DecidableEq, Repr

/-- System message shared by both shells. -/
def systemMessage : String :=
  "You are a helpful assistant that generates structured data about place interests."

/-- `generate_interests` of `main.py`: builds the request (one outbound
call per invocation) and classifies the model reply `content`.  The
module-level `INTERESTS` taxonomy and the reply are explicit inputs. -/
def generate_interests (pd : PlaceDetails) (interests : List String)
    (content : String) : ChatRequest × Except GenFailure PlaceInterests :=
  (⟨"gpt-4o-mini",
    [⟨"system", systemMessage⟩, ⟨"user", mainPrompt pd interests⟩],
    "json_object"⟩,
   classifyContent content)

/-- Google place-details response as read by `app.py`: a `status` string
and the `result` record. -/
structure GoogleResponse where
  status : String
  result : PlaceDetails
deriving DecidableEq, Repr

/-- `generate_interests` of `app.py`: identical to the `main.py` version
except that place fields are read from `place_details['result']` and the
prompt's final instruction differs. -/
def app_generate_interests (place_details : GoogleResponse)
    (interests : List String) (content : String) :
    ChatRequest × Except GenFailure PlaceInterests :=
  (⟨"gpt-4o-mini",
    [⟨"system", systemMessage⟩,
     ⟨"user", appPrompt place_details.result interests⟩],
    "json_object"⟩,
   classifyContent content)

/-- External collaborators a run may call. -/
inductive ExtCall where
  | googlePlaces : ExtCall
  | openaiChat : ExtCall
deriving DecidableEq, Repr

/-- Body of a handler response: either the serialized classification or an
object with an `error` field. -/
inductive HandlerBody where
  | errorBody (msg : String) : HandlerBody
  | resultBody (r : PlaceInterests) : HandlerBody
deriving DecidableEq, Repr

/-- Response returned by `lambda_handler`. -/
structure HandlerResponse where
  statusCode : Nat
  body : HandlerBody
deriving DecidableEq, Repr

/-- Lambda event: `event.get("place_details")` may be absent. -/
structure LambdaEvent where
  place_details : Option PlaceDetails
deriving DecidableEq, Repr

/-- Python truthiness of `os.environ.get("OPENAI_API_KEY")`: falsy when
unset or the empty string. -/
def keyTruthy : Option String → Bool
  | none => false
  | some k => !(k = "")

/-- `lambda_handler` of `main.py`: returns 400 with an error body when
`place_details` or the API key is falsy (making no outbound call);
otherwise invokes `generate_interests` (one OpenAI call) and returns 200
with the result or 500 with the error message.  `content` is the model
reply and `interests` the loaded taxonomy; the second component is the
trace of outbound calls. -/
def lambda_handler (event : LambdaEvent) (openaiKeyEnv : Option String)
    (interests : List String) (content : String) :
    HandlerResponse × List ExtCall :=
  match event.place_details with
  | none => (⟨400, HandlerBody.errorBody "Missing required parameters"⟩, [])
  | some pd =>
    if pd.truthy && keyTruthy openaiKeyEnv then
      match (generate_interests pd interests content).2 with
      | Except.ok pi =>
        (⟨200, HandlerBody.resultBody pi⟩, [ExtCall.openaiChat])
      | Except.error e =>
        (⟨500, HandlerBody.errorBody (genFailureMessage e)⟩,
         [ExtCall.openaiChat])
    else (⟨400, HandlerBody.errorBody "Missing required parameters"⟩, [])

/-- Outcome rendered by the interactive shell's button handler. -/
inductive AppOutcome where
  | warnMissingInputs : AppOutcome
  | fetchError (status : String) : AppOutcome
  | genError (msg : String) : AppOutcome
  | showResult (pi : PlaceInterests) : AppOutcome
deriving DecidableEq, Repr

/-- The `st.button("Generate Interests")` handler of `app.py`: with any
input field empty it warns and calls nothing; otherwise it fetches place
details, and only when the response status is `"OK"` does it invoke
`app_generate_interests` (issuing the OpenAI call); a non-OK status
renders an error instead.  `resp` is the fetched response and `content`
the model reply; the second component is the trace of outbound calls. -/
def app_button_flow (place_id google_api_key openai_api_key : String)
    (resp : GoogleResponse) (interests : List String) (content : String) :
    AppOutcome × List ExtCall :=
  if !(place_id = "") && !(google_api_key = "") && !(openai_api_key = "") then
    if resp.status = "OK" then
      match (app_generate_interests resp interests content).2 with
      | Except.ok pi =>
        (AppOutcome.showResult pi, [ExtCall.googlePlaces, ExtCall.openaiChat])
      | Except.error e =>
        (AppOutcome.genError (genFailureMessage e),
         [ExtCall.googlePlaces, ExtCall.openaiChat])
    else (AppOutcome.fetchError resp.status, [ExtCall.googlePlaces])
  else (AppOutcome.warnMissingInputs, [])

/-- Fields of one CSV record, split at commas (quoting is not used by the
simple rows this taxonomy file holds).  Always returns at least one
field. -/
def splitFieldsCh : List Char → List (List Char)
  | [] => [[]]
  | c :: rest =>
    match splitFieldsCh rest with
    | [] => [[]]
    | f :: fs => if c = ',' then [] :: f :: fs else (c :: f) :: fs

/-- One row as produced by `csv.reader`: an empty line yields the empty
row `[]`, any other line its comma-separated fields. -/
def csvRow (line : String) : List String :=
  if line.data.isEmpty then []
  else (splitFieldsCh line.data).map (fun f => String.mk f)

/-- Taxonomy loading shared by `load_interests_from_s3` (`main.py`) and
`load_interests_from_csv` (`app.py`): the decoded file content arrives as
`splitlines()` output, and the loader keeps `row[0]` for every non-empty
row (`[row[0] for row in reader if row]`). -/
def load_interests (lines : List String) : List String :=
  (lines.map csvRow).filterMap
    (fun row => match row with | [] => none | f :: _ => some f)

/-- First field of a CSV line (used to characterize `load_interests`). -/
def firstField (line : String) : String :=
  ((splitFieldsCh line.data).map (fun f => String.mk f)).headD ""

/-- Boolean substring test on character lists: `pat` occurs contiguously in
`hay`. -/
def containsSub (hay pat : List Char) : Bool :=
  match hay with
  | [] => pat.isEmpty
  | _ :: t => pat.isPrefixOf hay || containsSub t pat

/-- Boolean substring test on strings. -/
def strContains (s pat : String) : Bool := containsSub s.data pat.data

/-- A substring of the tail is a substring of the whole list. -/
theorem containsSub_append_left (h t pat : List Char)
    (hc : containsSub t pat = true) : containsSub (h ++ t) pat = true := by
  induction h with
  | nil => simpa using hc
  | cons c h2 ih =>
    show (pat.isPrefixOf (c :: (h2 ++ t)) || containsSub (h2 ++ t) pat) = true
    rw [ih]
    exact Bool.or_true _

/-- A list is a prefix of itself followed by anything. -/
theorem isPrefixOf_append_self (l t : List Char) :
    l.isPrefixOf (l ++ t) = true := by
  induction l with
  | nil => cases t <;> rfl
  | cons c l2 ih =>
    show (c == c && l2.isPrefixOf (l2 ++ t)) = true
    rw [ih, beq_self_eq_true]
    rfl

/-- A list occurs as a substring at the front of itself followed by
anything. -/
theorem containsSub_self_front (pat t : List Char) :
    containsSub (pat ++ t) pat = true := by
  cases pat with
  | nil =>
    cases t with
    | nil => rfl
    | cons c t2 =>
      show (List.isPrefixOf [] (c :: t2) || containsSub t2 []) = true
      rfl
  | cons p ps =>
    show (List.isPrefixOf (p :: ps) ((p :: ps) ++ t) ||
      containsSub (ps ++ t) (p :: ps)) = true
    rw [isPrefixOf_append_self]
    rfl

/-- A list occurs as a substring anywhere it appears contiguously. -/
theorem containsSub_middle (h pat t : List Char) :
    containsSub (h ++ (pat ++ t)) pat = true :=
  containsSub_append_left h (pat ++ t) pat (containsSub_self_front pat t)

/-- String-level version of `containsSub_append_left`. -/
theorem strContains_append_left (a b pat : String)
    (h : strContains b pat = true) : strContains (a ++ b) pat = true := by
  show containsSub (a ++ b).data pat.data = true
  rw [String.data_append]
  exact containsSub_append_left a.data b.data pat.data h

/-- Appending one member to a JSON object shifts `dictGet` exactly as a
Python dict update would: the new key wins, other keys are unaffected. -/
theorem dictGet_append_single (kvs : List (String × Json)) (k key : String)
    (v : Json) :
    dictGet (kvs ++ [(k, v)]) key =
      if k = key then some v else dictGet kvs key := by
  induction kvs with
  | nil => rfl
  | cons hd rest ih =>
    show (match dictGet (rest ++ [(k, v)]) key with
      | some v2 => some v2
      | none => if hd.1 = key then some hd.2 else none) =
      if k = key then some v
      else match dictGet rest key with
        | some v2 => some v2
        | none => if hd.1 = key then some hd.2 else none
    rw [ih]
    by_cases hk : k = key
    · rw [if_pos hk, if_pos hk]
    · rw [if_neg hk, if_neg hk]

/-- A validated `PlaceInterests` has a non-empty `interests` list: the
`min_items=1` constraint is enforced at parse time. -/
theorem validatePlaceInterests_nonempty (j : Json) (pi : PlaceInterests)
    (h : validatePlaceInterests j = some pi) : pi.interests ≠ [] := by
  unfold validatePlaceInterests at h
  split at h
  · split at h
    · split at h
      · split at h
        · rename_i hlen
          cases h
          exact List.ne_nil_of_length_pos (Nat.lt_of_lt_of_le Nat.zero_lt_one hlen)
        · exact absurd h (by simp)
      · exact absurd h (by simp)
    · exact absurd h (by simp)
  · exact absurd h (by simp)

/-- Splitting CSV fields always yields at least one field. -/
theorem splitFieldsCh_ne_nil (cs : List Char) : splitFieldsCh cs ≠ [] := by
  cases cs with
  | nil => exact fun hcontra => List.noConfusion hcontra
  | cons c rest =>
    unfold splitFieldsCh
    split
    · exact fun hcontra => List.noConfusion hcontra
    · split
      · exact fun hcontra => List.noConfusion hcontra
      · exact fun hcontra => List.noConfusion hcontra

/-- C1 counterexample: a successful `generate_interests` run may return an
interest whose `sub_interests` list is empty — `Interest.sub_interests`
carries no minimum-length constraint, so the reply
`{"interests": [{"main_interest": "Food", "sub_interests": []}]}`
validates and is returned, refuting the claim that every element of a
successful result has a non-empty `sub_interests` list. -/
theorem c1_counterexample :
    (generate_interests ⟨none, none, none, none, []⟩ ["Food"]
      "\x7b\"interests\": [\x7b\"main_interest\": \"Food\", \"sub_interests\": []\x7d]\x7d").2 =
      Except.ok (PlaceInterests.mk [Interest.mk "Food" []]) ∧
    Interest.mk "Food" [] ∈ (PlaceInterests.mk [Interest.mk "Food" []]).interests ∧
    (Interest.mk "Food" []).sub_interests = [] := by
  refine ⟨rfl, ?_, rfl⟩
  simp

/-- C1 (amended): whenever `generate_interests` returns successfully, the
returned value's `interests` list is non-empty (`min_items=1` is enforced);
the individual `sub_interests` lists are not constrained and may be
empty. -/
theorem c1_success_interests_nonempty (pd : PlaceDetails)
    (interests : List String) (content : String) (r : PlaceInterests)
    (h : (generate_interests pd interests content).2 = Except.ok r) :
    r.interests ≠ [] := by
  have hc : classifyContent content = Except.ok r := h
  unfold classifyContent at hc
  split at hc
  · exact absurd hc (by simp)
  · split at hc
    · cases hc
      exact validatePlaceInterests_nonempty _ _ (by assumption)
    · exact absurd hc (by simp)

/-- C1 witness: the spec's own example reply succeeds and the amended
theorem applies to it. -/
theorem c1_witness :
    (generate_interests ⟨none, none, none, none, []⟩ ["Food"]
      "\x7b\"interests\": [\x7b\"main_interest\": \"Food\", \"sub_interests\": [\"Cafes\", \"Bakeries\"]\x7d]\x7d").2 =
      Except.ok (PlaceInterests.mk [Interest.mk "Food" ["Cafes", "Bakeries"]]) ∧
    (PlaceInterests.mk [Interest.mk "Food" ["Cafes", "Bakeries"]]).interests ≠ [] := by
  refine ⟨rfl, ?_⟩
  exact c1_success_interests_nonempty ⟨none, none, none, none, []⟩ ["Food"]
    "\x7b\"interests\": [\x7b\"main_interest\": \"Food\", \"sub_interests\": [\"Cafes\", \"Bakeries\"]\x7d]\x7d"
    (PlaceInterests.mk [Interest.mk "Food" ["Cafes", "Bakeries"]]) rfl

/-- C2: on the reply `{"interests": []}` (valid JSON, empty interests
list), `generate_interests` fails with the schema-validation failure kind
and returns no result, for every place record and taxonomy. -/
theorem c2_empty_interests_schema_error (pd : PlaceDetails)
    (interests : List String) :
    (generate_interests pd interests "\x7b\"interests\": []\x7d").2 =
      Except.error GenFailure.schemaValidationError := rfl

/-- C3: `generate_interests` fails with the invalid-response-format kind
exactly when the reply text is not syntactically valid JSON, and in
particular on the truncated text `{"interests": [`; it never returns a
partial result in that case. -/
theorem c3_invalid_json_iff (pd : PlaceDetails) (interests : List String)
    (content : String) :
    ((generate_interests pd interests content).2 =
        Except.error GenFailure.invalidResponseFormat ↔
      json_loads content = none) ∧
    (generate_interests pd interests "\x7b\"interests\": [").2 =
      Except.error GenFailure.invalidResponseFormat := by
  constructor
  · constructor
    · intro h
      have hc : classifyContent content =
          Except.error GenFailure.invalidResponseFormat := h
      unfold classifyContent at hc
      split at hc
      · rename_i hj
        exact hj
      · split at hc
        · exact absurd hc (by simp)
        · exact absurd hc (by simp)
    · intro h
      show classifyContent content = _
      unfold classifyContent
      rw [h]
  · rfl

set_option maxRecDepth 100000 in
/-- C4 counterexample: with the `types` field absent, the prompt does not
embed the placeholder for it — `', '.join(place_details.get('types', []))`
renders as the empty string, so `Types: N/A` never appears. -/
theorem c4_counterexample :
    strContains (mainPrompt ⟨none, none, none, none, []⟩ ["Food"])
      "Types: N/A" = false ∧
    (⟨none, none, none, none, []⟩ : PlaceDetails).types = none := by
  exact ⟨rfl, rfl⟩

/-- C4 (amended): for an absent `name`, `formatted_address`, or
description (missing `editorial_summary`, or one without `overview`), the
prompt embeds the placeholder `N/A` for that field; for an absent `types`
the joined list renders as the empty string instead, so `Types:` is
immediately followed by the next line. -/
theorem c4_placeholder_fields (pd : PlaceDetails) (interests : List String) :
    (pd.name = none →
      strContains (mainPrompt pd interests) "Name: N/A" = true) ∧
    (pd.formatted_address = none →
      strContains (mainPrompt pd interests) "Address: N/A" = true) ∧
    (pd.editorial_summary = none ∨ pd.editorial_summary = some none →
      strContains (mainPrompt pd interests) "Description: N/A" = true) ∧
    (pd.types = none →
      strContains (mainPrompt pd interests) "Types: \n    Description: " = true) := by
  have hjoin : String.intercalate ", " ([] : List String) = "" := rfl
  have hnil : ("" : String).data = [] := rfl
  refine ⟨?_, ?_, ?_, ?_⟩
  · intro h
    show containsSub (mainPrompt pd interests).data ("Name: N/A".data) = true
    simp only [mainPrompt, promptBody, h, Option.getD_none, String.data_append,
      List.append_assoc]
    apply containsSub_append_left
    rw [← List.append_assoc]
    have hf : "Name: ".data ++ "N/A".data = "Name: N/A".data := rfl
    rw [hf]
    exact containsSub_self_front _ _
  · intro h
    show containsSub (mainPrompt pd interests).data ("Address: N/A".data) = true
    simp only [mainPrompt, promptBody, h, Option.getD_none, String.data_append,
      List.append_assoc]
    iterate 4 apply containsSub_append_left
    rw [← List.append_assoc]
    have hf : "Address: ".data ++ "N/A".data = "Address: N/A".data := rfl
    rw [hf]
    exact containsSub_self_front _ _
  · intro h
    show containsSub (mainPrompt pd interests).data ("Description: N/A".data) = true
    have hd : (pd.editorial_summary.getD none).getD "N/A" = "N/A" := by
      cases h with
      | inl h2 => rw [h2]; rfl
      | inr h2 => rw [h2]; rfl
    simp only [mainPrompt, promptBody, hd, String.data_append,
      List.append_assoc]
    iterate 10 apply containsSub_append_left
    rw [← List.append_assoc]
    have hf : "Description: ".data ++ "N/A".data = "Description: N/A".data := rfl
    rw [hf]
    exact containsSub_self_front _ _
  · intro h
    show containsSub (mainPrompt pd interests).data
      ("Types: \n    Description: ".data) = true
    simp only [mainPrompt, promptBody, h, Option.getD_none, hjoin, hnil,
      String.data_append, List.append_assoc, List.nil_append]
    iterate 7 apply containsSub_append_left
    rw [← List.append_assoc, ← List.append_assoc]
    have hf : ("Types: ".data ++ "\n    ".data) ++ "Description: ".data =
        "Types: \n    Description: ".data := rfl
    rw [hf]
    exact containsSub_self_front _ _

/-- C4 witness: for the empty place record all three placeholder fields
render as `N/A` and `Types:` renders empty. -/
theorem c4_witness :
    strContains (mainPrompt ⟨none, none, none, none, []⟩ ["Food"])
      "Name: N/A" = true ∧
    strContains (mainPrompt ⟨none, none, none, none, []⟩ ["Food"])
      "Address: N/A" = true ∧
    strContains (mainPrompt ⟨none, none, none, none, []⟩ ["Food"])
      "Description: N/A" = true ∧
    strContains (mainPrompt ⟨none, none, none, none, []⟩ ["Food"])
      "Types: \n    Description: " = true := by
  have h := c4_placeholder_fields ⟨none, none, none, none, []⟩ ["Food"]
  exact ⟨h.1 rfl, h.2.1 rfl, h.2.2.1 (Or.inl rfl), h.2.2.2 rfl⟩

set_option maxRecDepth 100000 in
/-- C5 counterexample: the handler shell's prompt contains no instruction
about a minimum number of interests — the text `at least one` never occurs
in it (its final instruction asks only for taxonomy adherence), refuting
the claim for the handler shell. -/
theorem c5_counterexample :
    strContains (mainPrompt ⟨none, none, none, none, []⟩ ["Food"])
      "at least one" = false := rfl

set_option maxRecDepth 100000 in
/-- C5 (amended): both shells request JSON-object-formatted output; the
interactive shell's prompt instructs the completion to include at least
one interest, while the handler shell's prompt instead instructs it to
use only interests from the provided list. -/
theorem c5_request_format (pd : PlaceDetails) (gr : GoogleResponse)
    (interests : List String) (content : String) :
    (generate_interests pd interests content).1.response_format_type =
      "json_object" ∧
    (app_generate_interests gr interests content).1.response_format_type =
      "json_object" ∧
    strContains (appPrompt gr.result interests)
      "Ensure that you include at least one interest in the list." = true ∧
    strContains (mainPrompt pd interests)
      "Ensure that you include only interests from the provided list." = true := by
  refine ⟨rfl, rfl, ?_, ?_⟩
  · show containsSub (appPrompt gr.result interests).data _ = true
    simp only [appPrompt, String.data_append]
    apply containsSub_append_left
    rfl
  · show containsSub (mainPrompt pd interests).data _ = true
    simp only [mainPrompt, String.data_append]
    apply containsSub_append_left
    rfl

/-- C6: an event with no `place_details` key yields statusCode 400 with an
error body, and no outbound call is made. -/
theorem c6_missing_place_details (event : LambdaEvent) (key : Option String)
    (interests : List String) (content : String)
    (h : event.place_details = none) :
    (lambda_handler event key interests content).1.statusCode = 400 ∧
    (lambda_handler event key interests content).1.body =
      HandlerBody.errorBody "Missing required parameters" ∧
    (lambda_handler event key interests content).2 = [] := by
  simp [lambda_handler, h]

/-- C6 witness at a concrete event with `place_details` absent. -/
theorem c6_witness :
    (lambda_handler ⟨none⟩ (some "key") ["Food"] "x").1.statusCode = 400 ∧
    (lambda_handler ⟨none⟩ (some "key") ["Food"] "x").1.body =
      HandlerBody.errorBody "Missing required parameters" ∧
    (lambda_handler ⟨none⟩ (some "key") ["Food"] "x").2 = [] :=
  c6_missing_place_details ⟨none⟩ (some "key") ["Food"] "x" rfl

/-- C7: taxonomy loading keeps the first field of every non-empty row in
row order (blank rows skipped, no header handling, no deduplication), and
on the rows `Food,x` / blank / `Outdoors,y` yields exactly
`["Food", "Outdoors"]`. -/
theorem c7_taxonomy_loading :
    load_interests ["Food,x", "", "Outdoors,y"] = ["Food", "Outdoors"] ∧
    ∀ lines : List String,
      load_interests lines =
        (lines.filter (fun l => !l.data.isEmpty)).map firstField := by
  constructor
  · rfl
  · intro lines
    induction lines with
    | nil => rfl
    | cons l ls ih =>
      cases hb : l.data.isEmpty with
      | true =>
        have hrow : csvRow l = [] := by simp [csvRow, hb]
        have h1 : load_interests (l :: ls) = load_interests ls := by
          show List.filterMap _ (csvRow l :: List.map csvRow ls) = _
          rw [hrow]
          rfl
        have h2 : List.filter (fun l2 => !l2.data.isEmpty) (l :: ls) =
            List.filter (fun l2 => !l2.data.isEmpty) ls := by
          simp [List.filter_cons, hb]
        rw [h1, h2, ih]
      | false =>
        obtain ⟨fld, fs, hfld⟩ :=
          List.exists_cons_of_ne_nil (splitFieldsCh_ne_nil l.data)
        have hrow : csvRow l =
            String.mk fld :: List.map (fun x => String.mk x) fs := by
          simp [csvRow, hb, hfld]
        have h1 : load_interests (l :: ls) =
            String.mk fld :: load_interests ls := by
          show List.filterMap _ (csvRow l :: List.map csvRow ls) = _
          rw [hrow]
          rfl
        have h2 : List.filter (fun l2 => !l2.data.isEmpty) (l :: ls) =
            l :: List.filter (fun l2 => !l2.data.isEmpty) ls := by
          simp [List.filter_cons, hb]
        have h3 : firstField l = String.mk fld := by
          simp [firstField, hfld]
        rw [h1, h2, List.map_cons, h3, ih]

/-- C8: in the interactive shell, a fetched response whose status is not
`"OK"` short-circuits to the fetch-error message and the OpenAI call is
never issued. -/
theorem c8_non_ok_short_circuit (place_id google_key openai_key : String)
    (resp : GoogleResponse) (interests : List String) (content : String)
    (h1 : place_id ≠ "") (h2 : google_key ≠ "") (h3 : openai_key ≠ "")
    (h4 : resp.status ≠ "OK") :
    app_button_flow place_id google_key openai_key resp interests content =
      (AppOutcome.fetchError resp.status, [ExtCall.googlePlaces]) ∧
    ExtCall.openaiChat ∉
      (app_button_flow place_id google_key openai_key resp interests
        content).2 := by
  have he : app_button_flow place_id google_key openai_key resp interests
      content = (AppOutcome.fetchError resp.status, [ExtCall.googlePlaces]) := by
    simp [app_button_flow, h1, h2, h3, h4]
  refine ⟨he, ?_⟩
  rw [he]
  simp

/-- C8 witness: a concrete run with non-empty inputs and a
`ZERO_RESULTS` status. -/
theorem c8_witness :
    app_button_flow "place1" "gkey" "okey"
      ⟨"ZERO_RESULTS", ⟨none, none, none, none, []⟩⟩ ["Food"] "x" =
      (AppOutcome.fetchError "ZERO_RESULTS", [ExtCall.googlePlaces]) ∧
    ExtCall.openaiChat ∉
      (app_button_flow "place1" "gkey" "okey"
        ⟨"ZERO_RESULTS", ⟨none, none, none, none, []⟩⟩ ["Food"] "x").2 :=
  c8_non_ok_short_circuit "place1" "gkey" "okey"
    ⟨"ZERO_RESULTS", ⟨none, none, none, none, []⟩⟩ ["Food"] "x"
    (by decide) (by decide) (by decide) (by decide)

/-- C9: schema validation ignores unknown keys — appending an unrelated
member to the top-level object or to an interest object leaves validation
unchanged, and a concrete reply carrying extra keys at both levels
succeeds with only the known fields retained. -/
theorem c9_extra_keys_ignored :
    (∀ (kvs : List (String × Json)) (k : String) (v : Json),
      k ≠ "interests" →
        validatePlaceInterests (Json.obj (kvs ++ [(k, v)])) =
          validatePlaceInterests (Json.obj kvs)) ∧
    (∀ (kvs : List (String × Json)) (k : String) (v : Json),
      k ≠ "main_interest" → k ≠ "sub_interests" →
        validateInterest (Json.obj (kvs ++ [(k, v)])) =
          validateInterest (Json.obj kvs)) ∧
    (generate_interests ⟨none, none, none, none, []⟩ ["Food"]
      "\x7b\"interests\": [\x7b\"main_interest\": \"Food\", \"sub_interests\": [\"Cafes\"], \"confidence\": 3\x7d], \"note\": \"hi\"\x7d").2 =
      Except.ok (PlaceInterests.mk [Interest.mk "Food" ["Cafes"]]) := by
  refine ⟨?_, ?_, rfl⟩
  · intro kvs k v hk
    simp only [validatePlaceInterests]
    rw [dictGet_append_single, if_neg hk]
  · intro kvs k v hk1 hk2
    simp only [validateInterest]
    rw [dictGet_append_single, if_neg hk1, dictGet_append_single, if_neg hk2]

/-- C9 witness: concrete extra keys `note` and `confidence` are ignored by
the two validators. -/
theorem c9_witness :
    validatePlaceInterests
      (Json.obj ([("interests", Json.arr [])] ++ [("note", Json.str "hi")])) =
      validatePlaceInterests (Json.obj [("interests", Json.arr [])]) ∧
    validateInterest
      (Json.obj ([("main_interest", Json.str "Food"),
        ("sub_interests", Json.arr [])] ++ [("confidence", Json.num "3")])) =
      validateInterest (Json.obj [("main_interest", Json.str "Food"),
        ("sub_interests", Json.arr [])]) :=
  ⟨c9_extra_keys_ignored.1 [("interests", Json.arr [])] "note"
      (Json.str "hi") (by decide),
    c9_extra_keys_ignored.2.1
      [("main_interest", Json.str "Food"), ("sub_interests", Json.arr [])]
      "confidence" (Json.num "3") (by decide) (by decide)⟩

/-- C10: a present-but-falsy `place_details` (a dict with no keys) is
treated like an absent one — statusCode 400 with an error body and no
outbound call. -/
theorem c10_falsy_place_details (event : LambdaEvent) (key : Option String)
    (interests : List String) (content : String) (pd : PlaceDetails)
    (h : event.place_details = some pd) (hf : pd.truthy = false) :
    (lambda_handler event key interests content).1.statusCode = 400 ∧
    (lambda_handler event key interests content).1.body =
      HandlerBody.errorBody "Missing required parameters" ∧
    (lambda_handler event key interests content).2 = [] := by
  simp [lambda_handler, h, hf]

/-- C10 witness: the empty dict as `place_details`. -/
theorem c10_witness :
    (lambda_handler ⟨some ⟨none, none, none, none, []⟩⟩ (some "key") ["Food"]
      "x").1.statusCode = 400 ∧
    (lambda_handler ⟨some ⟨none, none, none, none, []⟩⟩ (some "key") ["Food"]
      "x").1.body = HandlerBody.errorBody "Missing required parameters" ∧
    (lambda_handler ⟨some ⟨none, none, none, none, []⟩⟩ (some "key") ["Food"]
      "x").2 = [] :=
  c10_falsy_place_details ⟨some ⟨none, none, none, none, []⟩⟩ (some "key")
    ["Food"] "x" ⟨none, none, none, none, []⟩ rfl rfl

end GenInterests
